import Mathlib

/-!
Shallow embedding of `hello_tls.py`: TLS protocol constants, the byte codec
helpers, the ClientHello encoder (`ClientHello.make_packet`), the
ServerHello/Alert decoder (`ServerHello.from_packet`), the host parser
(`_parse_host`) and the enumeration driver (`enumerate_ciphers_suites`).
Byte strings are modelled as `List Nat` of values below 256; fallible Python
operations (`int.to_bytes` overflow, `str.encode("ascii")`, enum lookup,
`struct.unpack`, assertions, raised exceptions) are modelled with
`Option`/`Except`.
-/

namespace HelloTls

/-- TLS protocol versions, each backed by a 2-byte wire code
(`class Protocol(Enum)` in the source). -/
inductive Protocol where
  | SSLv3
  | TLS_1_0
  | TLS_1_1
  | TLS_1_2
  | TLS_1_3
deriving DecidableEq, Repr

/-- Wire code of a protocol version as the 2-byte big-endian value
(the source stores the raw two bytes, e.g. `b"\x03\x01"` for TLS 1.0). -/
def Protocol.value : Protocol → List Nat
  | .SSLv3 => [0x03, 0x00]
  | .TLS_1_0 => [0x03, 0x01]
  | .TLS_1_1 => [0x03, 0x02]
  | .TLS_1_2 => [0x03, 0x03]
  | .TLS_1_3 => [0x03, 0x04]

/-- Wire code of a protocol version as a 16-bit integer; bytes compare
lexicographically exactly as these codes compare numerically. -/
def Protocol.code : Protocol → Nat
  | .SSLv3 => 0x0300
  | .TLS_1_0 => 0x0301
  | .TLS_1_1 => 0x0302
  | .TLS_1_2 => 0x0303
  | .TLS_1_3 => 0x0304

/-- Enum lookup `Protocol(bytes)` by 16-bit code; `none` models the
`ValueError` Python raises on an unrecognized code. -/
def Protocol.fromCode : Nat → Option Protocol
  | 0x0300 => some .SSLv3
  | 0x0301 => some .TLS_1_0
  | 0x0302 => some .TLS_1_1
  | 0x0303 => some .TLS_1_2
  | 0x0304 => some .TLS_1_3
  | _ => none

/-- TLS cipher suites, each backed by a 2-byte wire code
(`class CipherSuite(Enum)` in the source, in source order). -/
inductive CipherSuite where
  | TLS_AES_128_GCM_SHA256
  | TLS_AES_256_GCM_SHA384
  | TLS_CHACHA20_POLY1305_SHA256
  | TLS_AES_128_CCM_SHA256
  | TLS_AES_128_CCM_8_SHA256
  | TLS_EMPTY_RENEGOTIATION_INFO_SCSV
  | TLS_RSA_WITH_3DES_EDE_CBC_SHA
  | TLS_RSA_WITH_AES_128_CBC_SHA
  | TLS_RSA_WITH_AES_256_CBC_SHA
  | TLS_RSA_WITH_AES_128_GCM_SHA256
  | TLS_RSA_WITH_AES_256_GCM_SHA384
  | TLS_ECDHE_ECDSA_WITH_AES_128_CBC_SHA
  | TLS_ECDHE_ECDSA_WITH_AES_256_CBC_SHA
  | TLS_ECDHE_RSA_WITH_3DES_EDE_CBC_SHA
  | TLS_ECDHE_RSA_WITH_AES_128_CBC_SHA
  | TLS_ECDHE_RSA_WITH_AES_256_CBC_SHA
  | TLS_ECDHE_ECDSA_WITH_AES_128_GCM_SHA256
  | TLS_ECDHE_ECDSA_WITH_AES_256_GCM_SHA384
  | TLS_ECDHE_RSA_WITH_AES_128_GCM_SHA256
  | TLS_ECDHE_RSA_WITH_AES_256_GCM_SHA384
  | TLS_ECDHE_RSA_WITH_CHACHA20_POLY1305_SHA256
  | TLS_ECDHE_ECDSA_WITH_CHACHA20_POLY1305_SHA256
deriving DecidableEq, Repr

/-- Wire code of a cipher suite, the raw two bytes stored by the enum. -/
def CipherSuite.value : CipherSuite → List Nat
  | .TLS_AES_128_GCM_SHA256 => [0x13, 0x01]
  | .TLS_AES_256_GCM_SHA384 => [0x13, 0x02]
  | .TLS_CHACHA20_POLY1305_SHA256 => [0x13, 0x03]
  | .TLS_AES_128_CCM_SHA256 => [0x13, 0x04]
  | .TLS_AES_128_CCM_8_SHA256 => [0x13, 0x05]
  | .TLS_EMPTY_RENEGOTIATION_INFO_SCSV => [0x00, 0xff]
  | .TLS_RSA_WITH_3DES_EDE_CBC_SHA => [0x00, 0x0a]
  | .TLS_RSA_WITH_AES_128_CBC_SHA => [0x00, 0x2f]
  | .TLS_RSA_WITH_AES_256_CBC_SHA => [0x00, 0x35]
  | .TLS_RSA_WITH_AES_128_GCM_SHA256 => [0x00, 0x9c]
  | .TLS_RSA_WITH_AES_256_GCM_SHA384 => [0x00, 0x9d]
  | .TLS_ECDHE_ECDSA_WITH_AES_128_CBC_SHA => [0xc0, 0x09]
  | .TLS_ECDHE_ECDSA_WITH_AES_256_CBC_SHA => [0xc0, 0x0a]
  | .TLS_ECDHE_RSA_WITH_3DES_EDE_CBC_SHA => [0xc0, 0x12]
  | .TLS_ECDHE_RSA_WITH_AES_128_CBC_SHA => [0xc0, 0x13]
  | .TLS_ECDHE_RSA_WITH_AES_256_CBC_SHA => [0xc0, 0x14]
  | .TLS_ECDHE_ECDSA_WITH_AES_128_GCM_SHA256 => [0xc0, 0x2b]
  | .TLS_ECDHE_ECDSA_WITH_AES_256_GCM_SHA384 => [0xc0, 0x2c]
  | .TLS_ECDHE_RSA_WITH_AES_128_GCM_SHA256 => [0xc0, 0x2f]
  | .TLS_ECDHE_RSA_WITH_AES_256_GCM_SHA384 => [0xc0, 0x30]
  | .TLS_ECDHE_RSA_WITH_CHACHA20_POLY1305_SHA256 => [0xcc, 0xa8]
  | .TLS_ECDHE_ECDSA_WITH_CHACHA20_POLY1305_SHA256 => [0xcc, 0xa9]

/-- All cipher suites in source enum order (Python `tuple(CipherSuite)` /
`enumerate(CipherSuite)`). -/
def allCipherSuites : List CipherSuite :=
  [ .TLS_AES_128_GCM_SHA256, .TLS_AES_256_GCM_SHA384,
    .TLS_CHACHA20_POLY1305_SHA256, .TLS_AES_128_CCM_SHA256,
    .TLS_AES_128_CCM_8_SHA256, .TLS_EMPTY_RENEGOTIATION_INFO_SCSV,
    .TLS_RSA_WITH_3DES_EDE_CBC_SHA, .TLS_RSA_WITH_AES_128_CBC_SHA,
    .TLS_RSA_WITH_AES_256_CBC_SHA, .TLS_RSA_WITH_AES_128_GCM_SHA256,
    .TLS_RSA_WITH_AES_256_GCM_SHA384, .TLS_ECDHE_ECDSA_WITH_AES_128_CBC_SHA,
    .TLS_ECDHE_ECDSA_WITH_AES_256_CBC_SHA, .TLS_ECDHE_RSA_WITH_3DES_EDE_CBC_SHA,
    .TLS_ECDHE_RSA_WITH_AES_128_CBC_SHA, .TLS_ECDHE_RSA_WITH_AES_256_CBC_SHA,
    .TLS_ECDHE_ECDSA_WITH_AES_128_GCM_SHA256, .TLS_ECDHE_ECDSA_WITH_AES_256_GCM_SHA384,
    .TLS_ECDHE_RSA_WITH_AES_128_GCM_SHA256, .TLS_ECDHE_RSA_WITH_AES_256_GCM_SHA384,
    .TLS_ECDHE_RSA_WITH_CHACHA20_POLY1305_SHA256, .TLS_ECDHE_ECDSA_WITH_CHACHA20_POLY1305_SHA256 ]

/-- Enum lookup `CipherSuite(bytes)` by the exact 2-byte string; `none`
models the `ValueError` on an unrecognized (or wrong-length) value. -/
def CipherSuite.fromBytes (b : List Nat) : List CipherSuite → Option CipherSuite
  | [] => none
  | c :: rest => if c.value = b then some c else CipherSuite.fromBytes b rest

/-- Enum lookup over the full cipher-suite enumeration. -/
def CipherSuite.lookup (b : List Nat) : Option CipherSuite :=
  CipherSuite.fromBytes b allCipherSuites

/-- Alert levels (`class AlertLevel(Enum)`), 1-byte wire codes. -/
inductive AlertLevel where
  | WARNING
  | FATAL
deriving DecidableEq, Repr

/-- Enum lookup `AlertLevel(int)`. -/
def AlertLevel.fromCode : Nat → Option AlertLevel
  | 1 => some .WARNING
  | 2 => some .FATAL
  | _ => none

/-- Alert descriptions (`class AlertDescription(Enum)`), 1-byte wire codes. -/
inductive AlertDescription where
  | close_notify
  | unexpected_message
  | bad_record_mac
  | record_overflow
  | handshake_failure
  | bad_certificate
  | unsupported_certificate
  | certificate_revoked
  | certificate_expired
  | certificate_unknown
  | illegal_parameter
  | unknown_ca
  | access_denied
  | decode_error
  | decrypt_error
  | protocol_version
  | insufficient_security
  | internal_error
  | inappropriate_fallback
  | user_canceled
  | missing_extension
  | unsupported_extension
  | unrecognized_name
  | bad_certificate_status_response
  | unknown_psk_identity
  | certificate_required
  | no_application_protocol
deriving DecidableEq, Repr

/-- Enum lookup `AlertDescription(int)`. -/
def AlertDescription.fromCode : Nat → Option AlertDescription
  | 0 => some .close_notify
  | 10 => some .unexpected_message
  | 20 => some .bad_record_mac
  | 22 => some .record_overflow
  | 40 => some .handshake_failure
  | 42 => some .bad_certificate
  | 43 => some .unsupported_certificate
  | 44 => some .certificate_revoked
  | 45 => some .certificate_expired
  | 46 => some .certificate_unknown
  | 47 => some .illegal_parameter
  | 48 => some .unknown_ca
  | 49 => some .access_denied
  | 50 => some .decode_error
  | 51 => some .decrypt_error
  | 70 => some .protocol_version
  | 71 => some .insufficient_security
  | 80 => some .internal_error
  | 86 => some .inappropriate_fallback
  | 90 => some .user_canceled
  | 109 => some .missing_extension
  | 110 => some .unsupported_extension
  | 112 => some .unrecognized_name
  | 113 => some .bad_certificate_status_response
  | 115 => some .unknown_psk_identity
  | 116 => some .certificate_required
  | 120 => some .no_application_protocol
  | _ => none

/-- Python `n.to_bytes(3, "big")`; `none` models the `OverflowError` raised
when the value does not fit in 3 bytes. -/
def to_uint24 (n : Nat) : Option (List Nat) :=
  if n < 0x1000000 then some [n / 0x10000, n / 0x100 % 0x100, n % 0x100] else none

/-- Python `n.to_bytes(1, "big")`; `none` models `OverflowError`. -/
def to_uint8 (n : Nat) : Option (List Nat) :=
  if n < 0x100 then some [n] else none

/-- Python `n.to_bytes(2, "big")`; `none` models `OverflowError`. -/
def to_uint16 (n : Nat) : Option (List Nat) :=
  if n < 0x10000 then some [n / 0x100, n % 0x100] else none

/-- Result of a successfully parsed ServerHello (`@dataclass ServerHello`). -/
structure ServerHello where
  protocol : Protocol
  cipher_suite : CipherSuite
deriving DecidableEq, Repr

/-- Failure modes of `ServerHello.from_packet`: `ValueError('Empty response')`
on an empty buffer, `struct.error` when the buffer is shorter than the
fixed-layout prefix being unpacked, `AssertionError` from the structural
`assert` statements, `ValueError` from an enum lookup on an unrecognized wire
code, and the deliberately raised `ServerError(protocol, level, alert)`. -/
inductive DecodeErr where
  | emptyError
  | structError
  | assertError
  | unknownCode
  | serverError (protocol : Protocol) (level : AlertLevel) (alert : AlertDescription)
deriving DecidableEq, Repr

/-- Boolean success test on a decode result. -/
def isOkResult : Except DecodeErr ServerHello → Bool
  | .ok _ => true
  | .error _ => false

/-- The four structural `assert` checks of `ServerHello.from_packet` on a
handshake record, over the unpacked fields: `legacy_record_version` at bytes
1-2, `handshake_type` at byte 5, `server_version` at bytes 9-10 and
`session_id_length` at byte 43. (`record_type == 0x16` is re-asserted by the
source but already guaranteed by the branch.) -/
def helloChecks (packet : List Nat) : Bool :=
  (packet.getD 1 0 * 0x100 + packet.getD 2 0 = 0x0301 ∨
    packet.getD 1 0 * 0x100 + packet.getD 2 0 = 0x0302 ∨
    packet.getD 1 0 * 0x100 + packet.getD 2 0 = 0x0303) &&
  (packet.getD 5 0 = 0x02) &&
  (packet.getD 9 0 * 0x100 + packet.getD 10 0 = 0x0301 ∨
    packet.getD 9 0 * 0x100 + packet.getD 10 0 = 0x0302 ∨
    packet.getD 9 0 * 0x100 + packet.getD 10 0 = 0x0303) &&
  (packet.getD 43 0 = 0 ∨ packet.getD 43 0 = 0x20)

/-- Decoder `ServerHello.from_packet`. The fixed prefix `"!BHHB3sH32sB"` has
`struct.calcsize` 44; Python's `struct.unpack` on a slice fails when the
buffer is shorter than the format, the `assert` statements fail on bad field
values, and the alert branch always raises (`ServerError` when all three enum
lookups succeed). -/
def ServerHello.from_packet (packet : List Nat) : Except DecodeErr ServerHello :=
  if packet = [] then .error .emptyError
  else if packet.getD 0 0 = 0x15 then
    -- Alert record: unpack '!BHH' from packet[:5], then '!BB' from packet[5:7].
    if packet.length < 5 then .error .structError
    else if packet.length < 7 then .error .structError
    else
      match Protocol.fromCode (packet.getD 1 0 * 0x100 + packet.getD 2 0) with
      | none => .error .unknownCode
      | some p =>
        match AlertLevel.fromCode (packet.getD 5 0) with
        | none => .error .unknownCode
        | some l =>
          match AlertDescription.fromCode (packet.getD 6 0) with
          | none => .error .unknownCode
          | some d => .error (.serverError p l d)
  else if ¬ packet.getD 0 0 = 0x16 then .error .assertError
  else if packet.length < 44 then .error .structError
  else if ¬ (packet.getD 1 0 * 0x100 + packet.getD 2 0 = 0x0301 ∨
      packet.getD 1 0 * 0x100 + packet.getD 2 0 = 0x0302 ∨
      packet.getD 1 0 * 0x100 + packet.getD 2 0 = 0x0303) then .error .assertError
  else if ¬ packet.getD 5 0 = 0x02 then .error .assertError
  else if ¬ (packet.getD 9 0 * 0x100 + packet.getD 10 0 = 0x0301 ∨
      packet.getD 9 0 * 0x100 + packet.getD 10 0 = 0x0302 ∨
      packet.getD 9 0 * 0x100 + packet.getD 10 0 = 0x0303) then .error .assertError
  else if ¬ (packet.getD 43 0 = 0 ∨ packet.getD 43 0 = 0x20) then .error .assertError
  else
    match Protocol.fromCode (packet.getD 9 0 * 0x100 + packet.getD 10 0) with
    | none => .error .unknownCode
    | some p =>
      match CipherSuite.lookup ((packet.drop (44 + packet.getD 43 0)).take 2) with
      | none => .error .unknownCode
      | some c => .ok ⟨p, c⟩

/-- Configuration of a ClientHello (`@dataclass ClientHello`): server name as
a list of character code points, allowed protocols and allowed cipher suites
in order. -/
structure ClientHello where
  server_name : List Nat
  allowed_protocols : List Protocol
  allowed_cipher_suites : List CipherSuite

/-- Python `str.encode("ascii")`: succeeds, returning the code points as
bytes, exactly when every code point is below 128. -/
def encodeAscii (s : List Nat) : Option (List Nat) :=
  if s.all (fun c => c < 128) then some s else none

/-- The fixed `curves` byte string of `make_packet` (supported groups). -/
def curves : List Nat :=
  [0x00, 0x1d, 0x00, 0x17, 0x00, 0x1e, 0x00, 0x18, 0x00, 0x19,
   0x01, 0x00, 0x01, 0x01, 0x01, 0x02, 0x01, 0x03, 0x01, 0x04]

/-- The fixed `signature_algorithms` byte string of `make_packet`. -/
def signature_algorithms : List Nat :=
  [0x04, 0x03, 0x05, 0x03, 0x06, 0x03, 0x08, 0x07, 0x08, 0x08,
   0x08, 0x09, 0x08, 0x0a, 0x08, 0x0b, 0x08, 0x04, 0x08, 0x05,
   0x08, 0x06, 0x04, 0x01, 0x05, 0x01, 0x06, 0x01, 0x02, 0x01,
   0x02, 0x03]

/-- The `supported_version_extension` block: present only when TLS 1.3 is
among the allowed protocols, empty otherwise (lines 180-190 of the source). -/
def supportedVersionExt (ps : List Protocol) : Option (List Nat) :=
  if Protocol.TLS_1_3 ∈ ps then
    let supported_versions := (ps.map Protocol.value).flatten
    do
      let l1 ← to_uint16 (supported_versions.length + 1)
      let l2 ← to_uint8 supported_versions.length
      pure ([0x00, 0x2b] ++ l1 ++ l2 ++ supported_versions)
  else pure []

/-- The server_name extension block of `make_packet`. -/
def serverNameExt (name : List Nat) : Option (List Nat) := do
  let l1 ← to_uint16 (name.length + 5)
  let l2 ← to_uint16 (name.length + 3)
  let l3 ← to_uint16 name.length
  let e ← encodeAscii name
  pure ([0x00, 0x00] ++ l1 ++ l2 ++ [0x00] ++ l3 ++ e)

/-- The status_request extension block (constant bytes). -/
def statusRequestExt : List Nat := [0x00, 0x05, 0x00, 0x05, 0x01, 0x00, 0x00, 0x00, 0x00]

/-- The EC point formats extension block (constant bytes). -/
def ecPointFormatsExt : List Nat := [0x00, 0x0b, 0x00, 0x04, 0x03, 0x00, 0x01, 0x02]

/-- The supported groups extension block. -/
def supportedGroupsExt : Option (List Nat) := do
  let l1 ← to_uint16 (curves.length + 2)
  let l2 ← to_uint16 curves.length
  pure ([0x00, 0x0a] ++ l1 ++ l2 ++ curves)

/-- The session ticket extension block (constant bytes). -/
def sessionTicketExt : List Nat := [0x00, 0x23, 0x00, 0x00]

/-- The encrypt-then-MAC extension block (constant bytes). -/
def encryptThenMacExt : List Nat := [0x00, 0x16, 0x00, 0x00]

/-- The extended master secret extension block (constant bytes). -/
def extendedMasterSecretExt : List Nat := [0x00, 0x17, 0x00, 0x00]

/-- The signature algorithms extension block. -/
def signatureAlgorithmsExt : Option (List Nat) := do
  let l1 ← to_uint16 (signature_algorithms.length + 2)
  let l2 ← to_uint16 signature_algorithms.length
  pure ([0x00, 0x0d] ++ l1 ++ l2 ++ signature_algorithms)

/-- The renegotiation_info extension block (constant bytes). -/
def renegotiationInfoExt : List Nat := [0xff, 0x01, 0x00, 0x01, 0x00]

/-- The signed certificate timestamp extension block (constant bytes). -/
def sctExt : List Nat := [0x00, 0x12, 0x00, 0x00]

/-- The hardcoded PSK key exchange modes extension bytes
(`b"\x00\x2d\x00\x02\x01\x01"`). -/
def pskModesExt : List Nat := [0x00, 0x2d, 0x00, 0x02, 0x01, 0x01]

/-- The hardcoded key share extension bytes with a fixed x25519 public key. -/
def keyShareExt : List Nat :=
  [0x00, 0x33, 0x00, 0x26, 0x00, 0x24, 0x00, 0x1d, 0x00, 0x20,
   0x35, 0x80, 0x72, 0xd6, 0x36, 0x58, 0x80, 0xd1, 0xae, 0xea,
   0x32, 0x9a, 0xdf, 0x91, 0x21, 0x38, 0x38, 0x51, 0xed, 0x21,
   0xa2, 0x8e, 0x3b, 0x75, 0xe9, 0x65, 0xd0, 0xd2, 0xcd, 0x16,
   0x62, 0x54]

/-- The full `extensions` byte string of `make_packet` (lines 192-246):
one concatenation in the source's fixed order, with the
supported_versions block conditional and the PSK-modes and key-share blocks
appended unconditionally. -/
def extensionsBytes (ch : ClientHello) : Option (List Nat) := do
  let sv ← supportedVersionExt ch.allowed_protocols
  let sn ← serverNameExt ch.server_name
  let sg ← supportedGroupsExt
  let sa ← signatureAlgorithmsExt
  pure (sn ++ statusRequestExt ++ ecPointFormatsExt ++ sg ++ sessionTicketExt ++
    encryptThenMacExt ++ extendedMasterSecretExt ++ sa ++ renegotiationInfoExt ++
    sctExt ++ sv ++ pskModesExt ++ keyShareExt)

/-- Python `max(protocols, key=lambda protocol: protocol.value)`: first
element of maximal wire code, `none` on the empty list (where Python raises
`ValueError`). -/
def maxByValue : List Protocol → Option Protocol
  | [] => none
  | p :: rest => some (rest.foldl (fun acc q => if acc.code < q.code then q else acc) p)

/-- The `client_hello_version` computed at lines 248-250: the maximum allowed
protocol, demoted to TLS 1.2 when it is TLS 1.3. -/
def clientHelloVersion (ps : List Protocol) : Option Protocol := do
  let m ← maxByValue ps
  pure (if m = Protocol.TLS_1_3 then Protocol.TLS_1_2 else m)

/-- The `record_version` of line 270: SSLv3 exactly when the client-hello
legacy version is SSLv3, TLS 1.0 otherwise. -/
def recordVersion (v : Protocol) : Protocol :=
  if v = Protocol.SSLv3 then Protocol.SSLv3 else Protocol.TLS_1_0

/-- The fixed 32-byte "random" of `make_packet` (bytes 0x00..0x1f). -/
def clientRandom : List Nat := List.range 32

/-- The fixed 32-byte legacy session ID of `make_packet` (bytes 0xe0..0xff). -/
def legacySessionId : List Nat := (List.range 32).map (fun i => 0xe0 + i)

/-- The `cipher_suites` byte string of `make_packet` (line 146): the
concatenation of the requested suites' 2-byte codes. -/
def cipherSuitesBytes (cs : List CipherSuite) : List Nat :=
  (cs.map CipherSuite.value).flatten

/-- The `client_hello` byte string of `make_packet` (lines 251-262), given
the already-encoded version, length fields and extensions. -/
def clientHelloBody (ch : ClientHello) (v : Protocol) (csLen extLen exts : List Nat) :
    List Nat :=
  v.value ++ clientRandom ++ [0x20] ++ legacySessionId ++ csLen ++
    cipherSuitesBytes ch.allowed_cipher_suites ++ [0x01, 0x00] ++ extLen ++ exts

/-- The `handshake` byte string of `make_packet` (lines 264-268). -/
def handshakeBytes (chLen client_hello : List Nat) : List Nat :=
  [0x01] ++ chLen ++ client_hello

/-- Encoder `ClientHello.make_packet` (lines 142-278): produces the full TLS
record; `none` models the Python exceptions reachable from it
(`OverflowError` from `to_bytes`, `UnicodeEncodeError` from
`encode("ascii")`, `ValueError` from `max` on an empty protocol list). -/
def ClientHello.make_packet (ch : ClientHello) : Option (List Nat) := do
  let exts ← extensionsBytes ch
  let v ← clientHelloVersion ch.allowed_protocols
  let csLen ← to_uint16 (cipherSuitesBytes ch.allowed_cipher_suites).length
  let extLen ← to_uint16 exts.length
  let chLen ← to_uint24 (clientHelloBody ch v csLen extLen exts).length
  let hsLen ← to_uint16 (handshakeBytes chLen (clientHelloBody ch v csLen extLen exts)).length
  pure ([0x16] ++ (recordVersion v).value ++ hsLen ++
    handshakeBytes chLen (clientHelloBody ch v csLen extLen exts))

/-- Response of the server/transport oracle to one ClientHello attempt
(`client_hello.send(...)` inside `enumerate_subset`): a parsed ServerHello, a
raised `ServerError(protocol, level, alert)`, or any other transport/parse
exception. -/
inductive SendResult where
  | hello (sh : ServerHello)
  | alert (protocol : Protocol) (level : AlertLevel) (alert : AlertDescription)
  | failT

/-- Failure modes of the enumeration driver: a re-raised `ServerError`, the
`ValueError` from `list.remove` when the accepted suite is not among the
offered candidates, a propagated transport/parse exception, and the final
`ValueError('Server did not accept any cipher suite. ...')`. -/
inductive EnumErr where
  | serverErr (protocol : Protocol) (level : AlertLevel) (alert : AlertDescription)
  | removeMissing
  | transportErr
  | noCipherAccepted
deriving DecidableEq, Repr

/-- Loop body of `enumerate_subset`, with the remaining-candidate list length
as a structural fuel argument: each successful attempt removes the accepted
suite from the candidate list, so `remaining.length` bounds the iteration
count exactly and the fuel-exhaustion branch coincides with the
`list.remove` failure branch (both unreachable from the wrapper when the
server answers from the offered list). -/
def enumerateSubsetGo (server : List CipherSuite → SendResult) :
    Nat → List CipherSuite → List CipherSuite → Except EnumErr (List CipherSuite)
  | fuel, remaining, accepted =>
    match server remaining with
    | .failT => .error .transportErr
    | .alert p l d =>
      if d = AlertDescription.handshake_failure then .ok accepted
      else .error (.serverErr p l d)
    | .hello sh =>
      if sh.cipher_suite ∈ remaining then
        match fuel with
        | 0 => .error .removeMissing
        | fuel + 1 =>
          enumerateSubsetGo server fuel (remaining.erase sh.cipher_suite)
            (accepted ++ [sh.cipher_suite])
      else .error .removeMissing

/-- Worker loop `enumerate_subset(remaining_cipher_suites)` of
`enumerate_ciphers_suites`, against a server oracle; returns the cipher
suites this worker appended to `accepted_cipher_suites`. -/
def enumerateSubset (server : List CipherSuite → SendResult)
    (remaining accepted : List CipherSuite) : Except EnumErr (List CipherSuite) :=
  enumerateSubsetGo server remaining.length remaining accepted

/-- The round-robin partition `cipher_suite_parts` (line 322): part `n`
holds the suites whose enum index is congruent to `n` modulo `max_workers`. -/
def cipherSuiteParts (max_workers : Nat) : List (List CipherSuite) :=
  (List.range max_workers).map (fun n =>
    ((allCipherSuites.enum).filter (fun ic => ic.1 % max_workers = n)).map Prod.snd)

/-- Sequential composition of the worker pool (`pool.map(enumerate_subset,
cipher_suite_parts)`): the first worker failure propagates, otherwise the
workers' appended results are concatenated. -/
def runWorkers (server : List CipherSuite → SendResult) :
    List (List CipherSuite) → Except EnumErr (List CipherSuite)
  | [] => .ok []
  | part :: rest =>
    match enumerateSubset server part [] with
    | .error e => .error e
    | .ok acc =>
      match runWorkers server rest with
      | .error e => .error e
      | .ok more => .ok (acc ++ more)

/-- Driver `enumerate_ciphers_suites` over a server oracle (network and host
parsing abstracted away): runs the workers over the round-robin partition and
fails when no cipher suite was accepted across the whole run. -/
def enumerate_ciphers_suites (server : List CipherSuite → SendResult)
    (max_workers : Nat) : Except EnumErr (List CipherSuite) :=
  match runWorkers server (cipherSuiteParts max_workers) with
  | .error e => .error e
  | .ok accepted =>
    if accepted.isEmpty then .error .noCipherAccepted
    else .ok accepted

/-- Python `str.split(sep, 1)` at a colon (code point 58): `none` when no
colon occurs, otherwise the part before the first colon and the rest. -/
def splitOnceColon : List Nat → Option (List Nat × List Nat)
  | [] => none
  | c :: rest =>
    if c = 58 then some ([], rest)
    else (splitOnceColon rest).map (fun p => (c :: p.1, p.2))

/-- Python whitespace characters stripped by `int(str)`. -/
def isPySpace (c : Nat) : Bool :=
  c = 32 || c = 9 || c = 10 || c = 11 || c = 12 || c = 13

/-- Digit test for code points. -/
def isDigitCode (c : Nat) : Bool := 48 ≤ c && c ≤ 57

/-- Digit-run parser for Python `int()`: after a first digit, digits may
continue, with single underscores allowed only between digits. -/
def pyDigitsGo : List Nat → Nat → Option Nat
  | [], acc => some acc
  | 95 :: c :: rest, acc =>
    if isDigitCode c then pyDigitsGo rest (acc * 10 + (c - 48)) else none
  | [95], _ => none
  | c :: rest, acc =>
    if isDigitCode c then pyDigitsGo rest (acc * 10 + (c - 48)) else none

/-- Unsigned part of Python `int(str)`: a non-empty digit run. -/
def pyUnsigned : List Nat → Option Nat
  | [] => none
  | c :: rest => if isDigitCode c then pyDigitsGo rest (c - 48) else none

/-- Python `int(str)` on a list of code points: strip whitespace, optional
sign, then a digit run; `none` models the `ValueError` on anything else. -/
def pyInt (s : List Nat) : Option Int :=
  let t := ((s.dropWhile isPySpace).reverse.dropWhile isPySpace).reverse
  match t with
  | 43 :: rest => (pyUnsigned rest).map (fun n => (n : Int))
  | 45 :: rest => (pyUnsigned rest).map (fun n => -(n : Int))
  | rest => (pyUnsigned rest).map (fun n => (n : Int))

/-- Host parser `_parse_host(host, port)` (lines 290-295): when the host
string contains a colon, split at the first colon and parse the rest as the
port with `int()` (ignoring the `port` argument); otherwise return host and
port unchanged. `none` models the `ValueError` from `int()`. -/
def _parse_host (host : List Nat) (port : Int) : Option (List Nat × Int) :=
  match splitOnceColon host with
  | some (server_name, port_str) => (pyInt port_str).map (fun n => (server_name, n))
  | none => some (host, port)

/-- Synthetic well-formed ServerHello record: handshake record type, legacy
record version and server version both set to `p`, handshake type 0x02, a
32-byte random, a session ID of length `sid`, then the cipher suite code of
`c` immediately after the session ID. -/
def synthServerHello (p : Protocol) (c : CipherSuite) (sid : Nat) : List Nat :=
  [0x16] ++ p.value ++ [0x00, 0x46] ++ [0x02] ++ [0x00, 0x00, 0x42] ++ p.value ++
    List.replicate 32 0x00 ++ [sid] ++ List.replicate sid 0xaa ++ c.value

/-- Maximum wire code among a list of protocols (0 on the empty list). -/
def maxCode (ps : List Protocol) : Nat :=
  ps.foldl (fun m p => max m p.code) 0

/-- Example request without TLS 1.3 for the extension-layout claims. -/
def exC2 : ClientHello :=
  ⟨[97], [Protocol.TLS_1_2], [CipherSuite.TLS_AES_128_GCM_SHA256]⟩

/-- Example request with non-empty protocols and cipher suites and an ASCII
server name, whose 128 requested protocols overflow the one-byte
supported-versions length field. -/
def exC8 : ClientHello :=
  ⟨[97], List.replicate 128 Protocol.TLS_1_3, [CipherSuite.TLS_AES_128_GCM_SHA256]⟩

/-! Theorems -/

/-- Folding the source's `max(..., key=lambda p: p.value)` step function
computes the maximum of the wire codes. -/
theorem foldl_maxBy_code (a : Protocol) (l : List Protocol) :
    (l.foldl (fun acc q => if acc.code < q.code then q else acc) a).code =
      l.foldl (fun m q => max m q.code) a.code := by
  induction l generalizing a with
  | nil => rfl
  | cons q rest ih =>
    simp only [List.foldl_cons]
    by_cases h : a.code < q.code
    · rw [if_pos h, Nat.max_eq_right h.le, ih]
    · rw [if_neg h, Nat.max_eq_left (Nat.not_lt.mp h), ih]

/-- C1: for every ClientHelloRequest with non-empty allowed_protocols, the
legacy client-hello version computed by `make_packet` is the protocol whose
wire code is the lower of TLS 1.2's code and the maximum requested code (so
TLS 1.2 whenever TLS 1.3 is the maximum), and the record-layer legacy
version is SSLv3 exactly when that legacy value is SSLv3 and TLS 1.0
otherwise. -/
theorem claim_C1 (ps : List Protocol) (h : ¬ ps = []) :
    ∃ v, clientHelloVersion ps = some v ∧
      v.code = min Protocol.TLS_1_2.code (maxCode ps) ∧
      (maxCode ps = Protocol.TLS_1_3.code → v = Protocol.TLS_1_2) ∧
      (recordVersion v = Protocol.SSLv3 ↔ v = Protocol.SSLv3) ∧
      (¬ v = Protocol.SSLv3 → recordVersion v = Protocol.TLS_1_0) := by
  obtain ⟨a, rest, rfl⟩ : ∃ a rest, ps = a :: rest := by
    cases ps with
    | nil => exact absurd rfl h
    | cons a rest => exact ⟨a, rest, rfl⟩
  have hMax : maxCode (a :: rest) = rest.foldl (fun m q => max m q.code) a.code := by
    simp only [maxCode, List.foldl_cons, Nat.zero_max]
  have hcode : (rest.foldl (fun acc q => if acc.code < q.code then q else acc) a).code =
      maxCode (a :: rest) := by
    rw [hMax]
    exact foldl_maxBy_code a rest
  generalize hm : rest.foldl (fun acc q => if acc.code < q.code then q else acc) a = m at hcode
  have hv : clientHelloVersion (a :: rest) =
      some (if m = Protocol.TLS_1_3 then Protocol.TLS_1_2 else m) := by
    simp [clientHelloVersion, maxByValue, hm]
  refine ⟨_, hv, ?_, ?_, ?_, ?_⟩
  · cases m <;> rw [← hcode] <;> decide
  · intro hM
    rw [← hcode] at hM
    cases m <;> first | rfl | exact absurd hM (by decide)
  · cases m <;> decide
  · cases m <;> decide

/-- Witness for C1 at the concrete protocol list `[TLS 1.3, SSLv3]`. -/
theorem claim_C1_witness :
    ∃ v, clientHelloVersion [Protocol.TLS_1_3, Protocol.SSLv3] = some v ∧
      v.code = min Protocol.TLS_1_2.code (maxCode [Protocol.TLS_1_3, Protocol.SSLv3]) ∧
      (maxCode [Protocol.TLS_1_3, Protocol.SSLv3] = Protocol.TLS_1_3.code →
        v = Protocol.TLS_1_2) ∧
      (recordVersion v = Protocol.SSLv3 ↔ v = Protocol.SSLv3) ∧
      (¬ v = Protocol.SSLv3 → recordVersion v = Protocol.TLS_1_0) :=
  claim_C1 [Protocol.TLS_1_3, Protocol.SSLv3] (by decide)

/-- C3: for every buffer whose first byte is 0x16, the decoder returns
successfully only if the four structural checks (legacy record version,
handshake type, server version, session ID length) hold, and any buffer
violating one of them fails with an assertion error (or with a struct
format error when the buffer is too short to carry the checked fields), so
no ServerHelloResult is produced. -/
theorem claim_C3 (packet : List Nat) (h : packet.head? = some 0x16) :
    (isOkResult (ServerHello.from_packet packet) = true → helloChecks packet = true) ∧
    (helloChecks packet = false →
      ServerHello.from_packet packet = .error .assertError ∨
      ServerHello.from_packet packet = .error .structError) := by
  have hne : ¬ packet = [] := by
    cases packet with
    | nil => simp at h
    | cons c rest => simp
  have h0 : packet.getD 0 0 = 0x16 := by
    cases packet with
    | nil => simp at h
    | cons c rest =>
      simp only [List.head?, Option.some.injEq] at h
      simpa using h
  have key : helloChecks packet = false →
      ServerHello.from_packet packet = .error .assertError ∨
      ServerHello.from_packet packet = .error .structError := by
    intro hcf
    rw [ServerHello.from_packet, if_neg hne, if_neg (by rw [h0]; decide),
      if_neg (fun hc => hc h0)]
    by_cases hlen : packet.length < 44
    · rw [if_pos hlen]
      right
      rfl
    · rw [if_neg hlen]
      by_cases h1 : (packet.getD 1 0 * 0x100 + packet.getD 2 0 = 0x0301 ∨
          packet.getD 1 0 * 0x100 + packet.getD 2 0 = 0x0302 ∨
          packet.getD 1 0 * 0x100 + packet.getD 2 0 = 0x0303)
      case neg =>
        rw [if_pos h1]
        left
        rfl
      rw [if_neg (not_not_intro h1)]
      by_cases h2 : packet.getD 5 0 = 0x02
      case neg =>
        rw [if_pos h2]
        left
        rfl
      rw [if_neg (not_not_intro h2)]
      by_cases h3 : (packet.getD 9 0 * 0x100 + packet.getD 10 0 = 0x0301 ∨
          packet.getD 9 0 * 0x100 + packet.getD 10 0 = 0x0302 ∨
          packet.getD 9 0 * 0x100 + packet.getD 10 0 = 0x0303)
      case neg =>
        rw [if_pos h3]
        left
        rfl
      rw [if_neg (not_not_intro h3)]
      by_cases h4 : (packet.getD 43 0 = 0 ∨ packet.getD 43 0 = 0x20)
      case neg =>
        rw [if_pos h4]
        left
        rfl
      have hht : helloChecks packet = true := by
        simp only [helloChecks, Bool.and_eq_true, decide_eq_true_eq]
        exact ⟨⟨⟨h1, h2⟩, h3⟩, h4⟩
      rw [hht] at hcf
      exact Bool.noConfusion hcf
  refine ⟨?_, key⟩
  intro hok
  cases hhc : helloChecks packet with
  | true => rfl
  | false =>
    rcases key hhc with he | he <;> rw [he] at hok <;> simp [isOkResult] at hok

/-- Witness for C3 at a concrete 44-byte buffer starting with 0x16 whose
session ID length byte is 7: the checks fail and decoding fails with an
assertion error. -/
theorem claim_C3_witness :
    (isOkResult (ServerHello.from_packet (0x16 :: List.replicate 42 0 ++ [7])) = true →
      helloChecks (0x16 :: List.replicate 42 0 ++ [7]) = true) ∧
    (helloChecks (0x16 :: List.replicate 42 0 ++ [7]) = false →
      ServerHello.from_packet (0x16 :: List.replicate 42 0 ++ [7]) = .error .assertError ∨
      ServerHello.from_packet (0x16 :: List.replicate 42 0 ++ [7]) = .error .structError) :=
  claim_C3 (0x16 :: List.replicate 42 0 ++ [7]) (by decide)

/-- C4: for every protocol in {TLS 1.0, TLS 1.1, TLS 1.2}, every enumerated
cipher suite and every session ID length in {0, 32}, decoding a synthetic
well-formed handshake record whose server version encodes the protocol and
whose 2-byte cipher-suite code follows the session ID yields exactly that
protocol and cipher suite. -/
theorem claim_C4 (p : Protocol) (c : CipherSuite) (sid : Nat)
    (hp : p = Protocol.TLS_1_0 ∨ p = Protocol.TLS_1_1 ∨ p = Protocol.TLS_1_2)
    (hs : sid = 0 ∨ sid = 32) :
    ServerHello.from_packet (synthServerHello p c sid) = .ok ⟨p, c⟩ := by
  rcases hp with rfl | rfl | rfl <;> rcases hs with rfl | rfl <;> cases c <;> rfl

/-- Witness for C4 at TLS 1.0 with the SCSV suite and an empty session ID. -/
theorem claim_C4_witness :
    ServerHello.from_packet
      (synthServerHello Protocol.TLS_1_0 CipherSuite.TLS_EMPTY_RENEGOTIATION_INFO_SCSV 0) =
      .ok ⟨Protocol.TLS_1_0, CipherSuite.TLS_EMPTY_RENEGOTIATION_INFO_SCSV⟩ :=
  claim_C4 Protocol.TLS_1_0 CipherSuite.TLS_EMPTY_RENEGOTIATION_INFO_SCSV 0
    (Or.inl rfl) (Or.inl rfl)

/-- C5: the decoder fails with the empty-response error on an empty buffer;
a buffer starting with 0x15 never decodes successfully, and when its alert
fields are long enough to parse and map to known enumerations it fails with
exactly the ServerError built from the mapped protocol, level and
description; a buffer starting with any byte other than 0x15 or 0x16 fails
with an assertion (format) error. -/
theorem claim_C5 :
    ServerHello.from_packet [] = .error .emptyError ∧
    (∀ packet : List Nat, packet.head? = some 0x15 →
      isOkResult (ServerHello.from_packet packet) = false) ∧
    (∀ (packet : List Nat) (p : Protocol) (l : AlertLevel) (d : AlertDescription),
      packet.head? = some 0x15 → 7 ≤ packet.length →
      Protocol.fromCode (packet.getD 1 0 * 0x100 + packet.getD 2 0) = some p →
      AlertLevel.fromCode (packet.getD 5 0) = some l →
      AlertDescription.fromCode (packet.getD 6 0) = some d →
      ServerHello.from_packet packet = .error (.serverError p l d)) ∧
    (∀ (packet : List Nat) (b : Nat), packet.head? = some b →
      ¬ b = 0x15 → ¬ b = 0x16 → ServerHello.from_packet packet = .error .assertError) := by
  refine ⟨rfl, ?_, ?_, ?_⟩
  · intro packet h
    have hne : ¬ packet = [] := by
      cases packet with
      | nil => simp at h
      | cons c rest => simp
    have h0 : packet.getD 0 0 = 0x15 := by
      cases packet with
      | nil => simp at h
      | cons c rest =>
        simp only [List.head?, Option.some.injEq] at h
        simpa using h
    rw [ServerHello.from_packet, if_neg hne, if_pos h0]
    repeat (first | rfl | split)
  · intro packet p l d h hlen hp hl hd
    have hne : ¬ packet = [] := by
      cases packet with
      | nil => simp at h
      | cons c rest => simp
    have h0 : packet.getD 0 0 = 0x15 := by
      cases packet with
      | nil => simp at h
      | cons c rest =>
        simp only [List.head?, Option.some.injEq] at h
        simpa using h
    rw [ServerHello.from_packet, if_neg hne, if_pos h0,
      if_neg (by omega : ¬ packet.length < 5), if_neg (by omega : ¬ packet.length < 7),
      hp, hl, hd]
  · intro packet b h hb15 hb16
    have hne : ¬ packet = [] := by
      cases packet with
      | nil => simp at h
      | cons c rest => simp
    have h0 : packet.getD 0 0 = b := by
      cases packet with
      | nil => simp at h
      | cons c rest =>
        simp only [List.head?, Option.some.injEq] at h
        simpa using h
    rw [ServerHello.from_packet, if_neg hne, if_neg (h0 ▸ hb15),
      if_pos (h0 ▸ hb16)]

/-- Witness for C5: a concrete 7-byte fatal handshake_failure alert maps to
the corresponding ServerError, and a buffer starting with 0x17 fails with an
assertion error. -/
theorem claim_C5_witness :
    ServerHello.from_packet [0x15, 0x03, 0x03, 0x00, 0x02, 0x02, 0x28] =
      .error (.serverError Protocol.TLS_1_2 AlertLevel.FATAL
        AlertDescription.handshake_failure) ∧
    ServerHello.from_packet [0x17, 0x01] = .error .assertError :=
  ⟨claim_C5.2.2.1 [0x15, 0x03, 0x03, 0x00, 0x02, 0x02, 0x28]
      Protocol.TLS_1_2 AlertLevel.FATAL AlertDescription.handshake_failure
      rfl (by decide) rfl rfl rfl,
    claim_C5.2.2.2 [0x17, 0x01] 0x17 rfl (by decide) (by decide)⟩

/-- C9: a handshake buffer passing all structural validations whose 2-byte
value after the session ID is not an enumerated cipher-suite code fails with
the generic unknown-code error, and an alert buffer carrying an unenumerated
alert level or description code fails with the same unknown-code error; in
neither case is a ServerHello result or a ServerError constructed. -/
theorem claim_C9 (packet : List Nat) :
    (packet.head? = some 0x16 → 44 ≤ packet.length → helloChecks packet = true →
      CipherSuite.lookup ((packet.drop (44 + packet.getD 43 0)).take 2) = none →
      ServerHello.from_packet packet = .error .unknownCode) ∧
    (packet.head? = some 0x15 → 7 ≤ packet.length →
      (AlertLevel.fromCode (packet.getD 5 0) = none ∨
        AlertDescription.fromCode (packet.getD 6 0) = none) →
      ServerHello.from_packet packet = .error .unknownCode) := by
  constructor
  · intro h hlen hchecks hcs
    have hne : ¬ packet = [] := by
      cases packet with
      | nil => simp at h
      | cons c rest => simp
    have h0 : packet.getD 0 0 = 0x16 := by
      cases packet with
      | nil => simp at h
      | cons c rest =>
        simp only [List.head?, Option.some.injEq] at h
        simpa using h
    simp only [helloChecks, Bool.and_eq_true, decide_eq_true_eq] at hchecks
    obtain ⟨⟨⟨h1, h2⟩, h3⟩, h4⟩ := hchecks
    rw [ServerHello.from_packet, if_neg hne, if_neg (by rw [h0]; decide),
      if_neg (fun hc => hc h0), if_neg (by omega : ¬ packet.length < 44),
      if_neg (not_not_intro h1), if_neg (not_not_intro h2),
      if_neg (not_not_intro h3), if_neg (not_not_intro h4)]
    rcases h3 with h3 | h3 | h3 <;> rw [h3]
    · rw [show Protocol.fromCode 0x0301 = some Protocol.TLS_1_0 from rfl, hcs]
    · rw [show Protocol.fromCode 0x0302 = some Protocol.TLS_1_1 from rfl, hcs]
    · rw [show Protocol.fromCode 0x0303 = some Protocol.TLS_1_2 from rfl, hcs]
  · intro h hlen hbad
    have hne : ¬ packet = [] := by
      cases packet with
      | nil => simp at h
      | cons c rest => simp
    have h0 : packet.getD 0 0 = 0x15 := by
      cases packet with
      | nil => simp at h
      | cons c rest =>
        simp only [List.head?, Option.some.injEq] at h
        simpa using h
    rw [ServerHello.from_packet, if_neg hne, if_pos h0,
      if_neg (by omega : ¬ packet.length < 5), if_neg (by omega : ¬ packet.length < 7)]
    rcases hbad with hL | hD
    · cases hP : Protocol.fromCode (packet.getD 1 0 * 0x100 + packet.getD 2 0) with
      | none => rfl
      | some p => rw [hL]
    · cases hP : Protocol.fromCode (packet.getD 1 0 * 0x100 + packet.getD 2 0) with
      | none => rfl
      | some p =>
        cases hLv : AlertLevel.fromCode (packet.getD 5 0) with
        | none => rfl
        | some l => rw [hD]

/-- Witness for C9: a structurally valid handshake record carrying the
unassigned cipher-suite code 0xdead fails with the unknown-code error, and an
alert record with unassigned level code 99 does too. -/
theorem claim_C9_witness :
    ServerHello.from_packet
      ([0x16, 0x03, 0x03, 0x00, 0x2a, 0x02, 0x00, 0x00, 0x26, 0x03, 0x03] ++
        List.replicate 32 0x00 ++ [0x00, 0xde, 0xad]) = .error .unknownCode ∧
    ServerHello.from_packet [0x15, 0x03, 0x03, 0x00, 0x02, 0x63, 0x28] =
      .error .unknownCode :=
  ⟨(claim_C9 ([0x16, 0x03, 0x03, 0x00, 0x2a, 0x02, 0x00, 0x00, 0x26, 0x03, 0x03] ++
        List.replicate 32 0x00 ++ [0x00, 0xde, 0xad])).1 rfl (by decide) (by decide) rfl,
    (claim_C9 [0x15, 0x03, 0x03, 0x00, 0x02, 0x63, 0x28]).2 rfl (by decide)
      (Or.inl rfl)⟩

/-- C6: a worker whose ClientHello attempt is answered with a ServerError
whose description is handshake_failure terminates its loop normally with its
accepted suites, while any other ServerError is re-raised; a failing worker's
error propagates through the pool, and a pool error propagates out of
`enumerate_ciphers_suites` — it is never swallowed. -/
theorem claim_C6 (server : List CipherSuite → SendResult)
    (remaining accepted : List CipherSuite) (p : Protocol) (l : AlertLevel)
    (d : AlertDescription) (hsrv : server remaining = .alert p l d) :
    (d = AlertDescription.handshake_failure →
      enumerateSubset server remaining accepted = .ok accepted) ∧
    (¬ d = AlertDescription.handshake_failure →
      enumerateSubset server remaining accepted = .error (.serverErr p l d)) ∧
    (∀ (rest : List (List CipherSuite)) (e : EnumErr),
      enumerateSubset server remaining [] = .error e →
      runWorkers server (remaining :: rest) = .error e) ∧
    (∀ (max_workers : Nat) (e : EnumErr),
      runWorkers server (cipherSuiteParts max_workers) = .error e →
      enumerate_ciphers_suites server max_workers = .error e) := by
  refine ⟨?_, ?_, ?_, ?_⟩
  · intro hd
    rw [enumerateSubset, enumerateSubsetGo, hsrv]
    exact if_pos hd
  · intro hd
    rw [enumerateSubset, enumerateSubsetGo, hsrv]
    exact if_neg hd
  · intro rest e he
    simp only [runWorkers]
    rw [he]
  · intro max_workers e he
    rw [enumerate_ciphers_suites, he]

/-- Witness for C6: against a server answering every offer with a fatal
handshake_failure alert a worker stops with an empty result, while against a
server answering with a fatal protocol_version alert the error propagates
out of the whole enumeration. -/
theorem claim_C6_witness :
    enumerateSubset
      (fun _ => .alert Protocol.TLS_1_2 AlertLevel.FATAL AlertDescription.handshake_failure)
      allCipherSuites [] = .ok [] ∧
    enumerate_ciphers_suites
      (fun _ => .alert Protocol.TLS_1_2 AlertLevel.FATAL AlertDescription.protocol_version)
      1 = .error (.serverErr Protocol.TLS_1_2 AlertLevel.FATAL
        AlertDescription.protocol_version) :=
  ⟨(claim_C6 _ allCipherSuites [] _ _ _ rfl).1 rfl,
    (claim_C6 (fun _ => .alert Protocol.TLS_1_2 AlertLevel.FATAL
        AlertDescription.protocol_version) (cipherSuiteParts 1).headI [] _ _ _ rfl).2.2.2 1 _
      (by rfl)⟩

/-- C7: `enumerate_ciphers_suites` never returns an empty sequence — every
normally returned result holds at least one accepted cipher suite — and when
the workers complete with zero accepted suites it fails with the descriptive
no-cipher-accepted error instead of returning. -/
theorem claim_C7 (server : List CipherSuite → SendResult) (max_workers : Nat) :
    (∀ res : List CipherSuite,
      enumerate_ciphers_suites server max_workers = .ok res → ¬ res = []) ∧
    (runWorkers server (cipherSuiteParts max_workers) = .ok [] →
      enumerate_ciphers_suites server max_workers = .error .noCipherAccepted) := by
  constructor
  · intro res hres
    rw [enumerate_ciphers_suites] at hres
    cases hrw : runWorkers server (cipherSuiteParts max_workers) with
    | error e =>
      rw [hrw] at hres
      exact Except.noConfusion hres
    | ok acc =>
      rw [hrw] at hres
      cases acc with
      | nil => exact Except.noConfusion hres
      | cons a rest =>
        cases hres
        simp
  · intro h
    rw [enumerate_ciphers_suites, h]
    rfl

/-- Witness for C7 against a server answering every offer with a fatal
handshake_failure alert: the enumeration fails with the descriptive error. -/
theorem claim_C7_witness :
    enumerate_ciphers_suites
      (fun _ => .alert Protocol.TLS_1_2 AlertLevel.FATAL AlertDescription.handshake_failure)
      1 = .error .noCipherAccepted :=
  (claim_C7 (fun _ => .alert Protocol.TLS_1_2 AlertLevel.FATAL
    AlertDescription.handshake_failure) 1).2 rfl

/-- Any successful run of the supported-versions do-block yields bytes
starting with the extension type 0x002b. -/
theorem svBlock_take2 (x y : Option (List Nat)) (svs sv : List Nat)
    (h : (do
      let l1 ← x
      let l2 ← y
      pure ([0x00, 0x2b] ++ l1 ++ l2 ++ svs)) = some sv) :
    sv.take 2 = [0x00, 0x2b] := by
  cases x with
  | none => exact Option.noConfusion h
  | some l1 =>
    cases y with
    | none => exact Option.noConfusion h
    | some l2 =>
      injection h with h2
      rw [← h2]
      rfl

/-- C2 counterexample: for the request `exC2`, whose allowed protocols do not
contain TLS 1.3, the extensions block still ends with the hardcoded
psk_key_exchange_modes and key_share extension bytes — refuting the claim
that none of the three TLS 1.3 extensions is emitted in that case. -/
theorem claim_C2_counterexample :
    ¬ Protocol.TLS_1_3 ∈ exC2.allowed_protocols ∧
    (extensionsBytes exC2).isSome = true ∧
    (pskModesExt ++ keyShareExt) <:+ ((extensionsBytes exC2).getD []) ∧
    ¬ (pskModesExt ++ keyShareExt) = [] :=
  ⟨by decide, rfl, ⟨((extensionsBytes exC2).getD []).take 112, by decide⟩, by decide⟩

/-- C2 amended: the extensions block is always the fixed-order concatenation
server_name, status_request, ec_point_formats, supported_groups,
session_ticket, encrypt_then_mac, extended_master_secret,
signature_algorithms, renegotiation_info, signed_certificate_timestamp,
supported_versions, psk_key_exchange_modes, key_share — where the
supported_versions block is non-empty (starting with type 0x002b) exactly
when TLS 1.3 is among the allowed protocols and empty otherwise, while the
psk_key_exchange_modes and key_share extensions are always emitted. -/
theorem claim_C2_amended (ch : ClientHello) (e : List Nat)
    (he : extensionsBytes ch = some e) :
    ∃ sn sv, serverNameExt ch.server_name = some sn ∧
      supportedVersionExt ch.allowed_protocols = some sv ∧
      e = sn ++ statusRequestExt ++ ecPointFormatsExt ++
        ([0x00, 0x0a, 0x00, 0x16, 0x00, 0x14] ++ curves) ++ sessionTicketExt ++
        encryptThenMacExt ++ extendedMasterSecretExt ++
        ([0x00, 0x0d, 0x00, 0x22, 0x00, 0x20] ++ signature_algorithms) ++
        renegotiationInfoExt ++ sctExt ++ sv ++ pskModesExt ++ keyShareExt ∧
      (¬ Protocol.TLS_1_3 ∈ ch.allowed_protocols → sv = []) ∧
      (Protocol.TLS_1_3 ∈ ch.allowed_protocols → sv.take 2 = [0x00, 0x2b]) := by
  cases hsv : supportedVersionExt ch.allowed_protocols with
  | none => simp [extensionsBytes, hsv] at he
  | some sv =>
    cases hsn : serverNameExt ch.server_name with
    | none => simp [extensionsBytes, hsv, hsn] at he
    | some sn =>
      refine ⟨sn, sv, rfl, rfl, ?_, ?_, ?_⟩
      · rw [extensionsBytes, hsv, hsn] at he
        injection he with he2
        rw [← he2]
        simp [curves, signature_algorithms, List.append_assoc]
      · intro hmem
        rw [supportedVersionExt, if_neg hmem] at hsv
        cases hsv
        rfl
      · intro hmem
        rw [supportedVersionExt, if_pos hmem] at hsv
        exact svBlock_take2 _ _ _ _ hsv

/-- Witness for C2 amended at a concrete request that does allow TLS 1.3. -/
theorem claim_C2_amended_witness :
    ∃ sn sv,
      serverNameExt (ClientHello.mk [0x62] [Protocol.TLS_1_3] []).server_name = some sn ∧
      supportedVersionExt (ClientHello.mk [0x62] [Protocol.TLS_1_3] []).allowed_protocols =
        some sv ∧
      (extensionsBytes (ClientHello.mk [0x62] [Protocol.TLS_1_3] [])).getD [] =
        sn ++ statusRequestExt ++ ecPointFormatsExt ++
        ([0x00, 0x0a, 0x00, 0x16, 0x00, 0x14] ++ curves) ++ sessionTicketExt ++
        encryptThenMacExt ++ extendedMasterSecretExt ++
        ([0x00, 0x0d, 0x00, 0x22, 0x00, 0x20] ++ signature_algorithms) ++
        renegotiationInfoExt ++ sctExt ++ sv ++ pskModesExt ++ keyShareExt ∧
      (¬ Protocol.TLS_1_3 ∈ (ClientHello.mk [0x62] [Protocol.TLS_1_3] []).allowed_protocols →
        sv = []) ∧
      (Protocol.TLS_1_3 ∈ (ClientHello.mk [0x62] [Protocol.TLS_1_3] []).allowed_protocols →
        sv.take 2 = [0x00, 0x2b]) :=
  claim_C2_amended (ClientHello.mk [0x62] [Protocol.TLS_1_3] [])
    ((extensionsBytes (ClientHello.mk [0x62] [Protocol.TLS_1_3] [])).getD []) rfl

/-- Successful 2-byte encoding for values below 2^16. -/
theorem to_uint16_isSome (n : Nat) (h : n < 0x10000) :
    ∃ b, to_uint16 n = some b ∧ b.length = 2 :=
  ⟨_, if_pos h, rfl⟩

/-- Successful 1-byte encoding for values below 2^8. -/
theorem to_uint8_isSome (n : Nat) (h : n < 0x100) :
    ∃ b, to_uint8 n = some b ∧ b.length = 1 :=
  ⟨_, if_pos h, rfl⟩

/-- Successful 3-byte encoding for values below 2^24. -/
theorem to_uint24_isSome (n : Nat) (h : n < 0x1000000) :
    ∃ b, to_uint24 n = some b ∧ b.length = 3 :=
  ⟨_, if_pos h, rfl⟩

/-- Each protocol's wire value is 2 bytes, so the flattened list of values
of `n` protocols has length `2 * n`. -/
theorem flatten_protocol_values_length (ps : List Protocol) :
    ((ps.map Protocol.value).flatten).length = 2 * ps.length := by
  induction ps with
  | nil => rfl
  | cons p rest ih =>
    have hp : (Protocol.value p).length = 2 := by cases p <;> rfl
    simp only [List.map_cons, List.flatten_cons, List.length_append, ih, hp,
      List.length_cons]
    omega

/-- Each cipher suite's wire value is 2 bytes, so `cipher_suites` for `n`
requested suites has length `2 * n`. -/
theorem cipherSuitesBytes_length (cs : List CipherSuite) :
    (cipherSuitesBytes cs).length = 2 * cs.length := by
  induction cs with
  | nil => rfl
  | cons c rest ih =>
    have hc : (CipherSuite.value c).length = 2 := by cases c <;> rfl
    simp only [cipherSuitesBytes, List.map_cons, List.flatten_cons, List.length_append,
      List.length_cons] at ih ⊢
    simp only [ih, hc]
    omega

/-- The server_name extension encodes successfully for any ASCII name of at
most 30000 characters, producing `name.length + 9` bytes. -/
theorem serverNameExt_isSome (name : List Nat)
    (hall : name.all (fun c => c < 128) = true) (hlen : name.length ≤ 30000) :
    ∃ sn, serverNameExt name = some sn ∧ sn.length = name.length + 9 := by
  obtain ⟨l1, h1, hl1⟩ := to_uint16_isSome (name.length + 5) (by omega)
  obtain ⟨l2, h2, hl2⟩ := to_uint16_isSome (name.length + 3) (by omega)
  obtain ⟨l3, h3, hl3⟩ := to_uint16_isSome name.length (by omega)
  refine ⟨[0x00, 0x00] ++ l1 ++ l2 ++ [0x00] ++ l3 ++ name, ?_, ?_⟩
  · rw [serverNameExt, h1, h2, h3, encodeAscii, if_pos hall]
    rfl
  · simp only [List.length_append, hl1, hl2, hl3, List.length_cons, List.length_nil]
    omega

/-- The supported-versions extension encodes successfully for at most 127
allowed protocols, producing at most `2 * count + 5` bytes. -/
theorem supportedVersionExt_isSome (ps : List Protocol) (hlen : ps.length ≤ 127) :
    ∃ sv, supportedVersionExt ps = some sv ∧ sv.length ≤ 2 * ps.length + 5 := by
  by_cases hmem : Protocol.TLS_1_3 ∈ ps
  · have hL := flatten_protocol_values_length ps
    obtain ⟨l1, h1, hl1⟩ :=
      to_uint16_isSome (((ps.map Protocol.value).flatten).length + 1) (by omega)
    obtain ⟨l2, h2, hl2⟩ :=
      to_uint8_isSome (((ps.map Protocol.value).flatten).length) (by omega)
    refine ⟨[0x00, 0x2b] ++ l1 ++ l2 ++ (ps.map Protocol.value).flatten, ?_, ?_⟩
    · rw [supportedVersionExt, if_pos hmem]
      show (do
        let l1 ← to_uint16 (((ps.map Protocol.value).flatten).length + 1)
        let l2 ← to_uint8 (((ps.map Protocol.value).flatten).length)
        pure ([0x00, 0x2b] ++ l1 ++ l2 ++ (ps.map Protocol.value).flatten)) =
          some ([0x00, 0x2b] ++ l1 ++ l2 ++ (ps.map Protocol.value).flatten)
      rw [h1, h2]
      rfl
    · simp only [List.length_append, hl1, hl2, hL, List.length_cons, List.length_nil]
      omega
  · refine ⟨[], ?_, by simp⟩
    rw [supportedVersionExt, if_neg hmem]
    rfl

/-- The extensions block encodes successfully under the size bounds,
producing at most `name.length + 418` bytes. -/
theorem extensionsBytes_isSome (ch : ClientHello)
    (hall : ch.server_name.all (fun c => c < 128) = true)
    (hnlen : ch.server_name.length ≤ 30000)
    (hplen : ch.allowed_protocols.length ≤ 127) :
    ∃ e, extensionsBytes ch = some e ∧ e.length ≤ ch.server_name.length + 418 := by
  obtain ⟨sv, hsv, hsvlen⟩ := supportedVersionExt_isSome ch.allowed_protocols hplen
  obtain ⟨sn, hsn, hsnlen⟩ := serverNameExt_isSome ch.server_name hall hnlen
  refine ⟨sn ++ statusRequestExt ++ ecPointFormatsExt ++
    ([0x00, 0x0a, 0x00, 0x16, 0x00, 0x14] ++ curves) ++ sessionTicketExt ++
    encryptThenMacExt ++ extendedMasterSecretExt ++
    ([0x00, 0x0d, 0x00, 0x22, 0x00, 0x20] ++ signature_algorithms) ++
    renegotiationInfoExt ++ sctExt ++ sv ++ pskModesExt ++ keyShareExt, ?_, ?_⟩
  · rw [extensionsBytes, hsv, hsn]
    rfl
  · simp only [List.length_append, hsnlen, statusRequestExt, ecPointFormatsExt, curves,
      sessionTicketExt, encryptThenMacExt, extendedMasterSecretExt, signature_algorithms,
      renegotiationInfoExt, sctExt, pskModesExt, keyShareExt, List.length_cons,
      List.length_nil]
    omega

/-- A non-empty protocol list always yields a client-hello legacy version. -/
theorem clientHelloVersion_isSome (ps : List Protocol) (h : ¬ ps = []) :
    ∃ v, clientHelloVersion ps = some v := by
  cases ps with
  | nil => exact absurd rfl h
  | cons a rest => exact ⟨_, rfl⟩

set_option maxRecDepth 100000 in
/-- C8 counterexample: the request `exC8` satisfies every invariant the claim
lists — non-empty allowed_protocols and allowed_cipher_suites, ASCII server
name — yet `make_packet` raises, because its 128 requested protocols make
the one-byte supported-versions length field overflow. -/
theorem claim_C8_counterexample :
    ¬ exC8.allowed_protocols = [] ∧ ¬ exC8.allowed_cipher_suites = [] ∧
    exC8.server_name.all (fun c => c < 128) = true ∧
    ClientHello.make_packet exC8 = none := by
  refine ⟨by decide, by decide, by decide, ?_⟩
  rfl

/-- C8 amended: encoding is total for every ClientHelloRequest with
non-empty allowed_protocols and allowed_cipher_suites and an ASCII server
name, provided every length field fits its fixed width — in particular for
at most 30000 name characters, at most 127 allowed protocols and at most
15000 allowed cipher suites. -/
theorem claim_C8_amended (ch : ClientHello)
    (hp : ¬ ch.allowed_protocols = []) (_hc : ¬ ch.allowed_cipher_suites = [])
    (hall : ch.server_name.all (fun c => c < 128) = true)
    (hnlen : ch.server_name.length ≤ 30000)
    (hplen : ch.allowed_protocols.length ≤ 127)
    (hclen : ch.allowed_cipher_suites.length ≤ 15000) :
    (ClientHello.make_packet ch).isSome = true := by
  obtain ⟨e, he, helen⟩ := extensionsBytes_isSome ch hall hnlen hplen
  obtain ⟨v, hv⟩ := clientHelloVersion_isSome ch.allowed_protocols hp
  have hcb := cipherSuitesBytes_length ch.allowed_cipher_suites
  obtain ⟨csLen, hcsLen, hcsLen2⟩ :=
    to_uint16_isSome (cipherSuitesBytes ch.allowed_cipher_suites).length (by omega)
  obtain ⟨extLen, hextLen, hextLen2⟩ := to_uint16_isSome e.length (by omega)
  have hvlen : v.value.length = 2 := by cases v <;> rfl
  have hCHlen : (clientHelloBody ch v csLen extLen e).length =
      73 + 2 * ch.allowed_cipher_suites.length + e.length := by
    simp only [clientHelloBody, List.length_append, hvlen, hcb, hcsLen2, hextLen2,
      clientRandom, legacySessionId, List.length_map, List.length_range,
      List.length_cons, List.length_nil]
    omega
  obtain ⟨chLen, hchLen, hchLen3⟩ :=
    to_uint24_isSome (clientHelloBody ch v csLen extLen e).length (by omega)
  obtain ⟨hsLen, hhsLen, hhsLen2⟩ :=
    to_uint16_isSome (handshakeBytes chLen (clientHelloBody ch v csLen extLen e)).length
      (by
        simp only [handshakeBytes, List.length_append, hchLen3, hCHlen,
          List.length_cons, List.length_nil]
        omega)
  rw [ClientHello.make_packet, he, hv]
  simp only [Option.bind_eq_bind, Option.some_bind]
  rw [hcsLen]
  simp only [Option.some_bind]
  rw [hextLen]
  simp only [Option.some_bind]
  rw [hchLen]
  simp only [Option.some_bind]
  rw [hhsLen]
  rfl

/-- Witness for C8 amended at a concrete small request allowing TLS 1.3. -/
theorem claim_C8_amended_witness :
    (ClientHello.make_packet
      (ClientHello.mk [0x68, 0x69] [Protocol.TLS_1_3, Protocol.TLS_1_0]
        allCipherSuites)).isSome = true :=
  claim_C8_amended
    (ClientHello.mk [0x68, 0x69] [Protocol.TLS_1_3, Protocol.TLS_1_0] allCipherSuites)
    (by decide) (by decide) (by decide) (by decide) (by decide) (by decide)

/-- Characterization of the colon split: when a colon occurs, `split(':', 1)`
returns the segment before the first colon and everything after it; when no
colon occurs it finds nothing. -/
theorem splitOnceColon_spec (host : List Nat) :
    (58 ∈ host → splitOnceColon host =
      some (host.takeWhile (fun c => c != 58), (host.dropWhile (fun c => c != 58)).drop 1)) ∧
    (¬ 58 ∈ host → splitOnceColon host = none) := by
  induction host with
  | nil => simp [splitOnceColon]
  | cons c rest ih =>
    by_cases hc : c = 58
    · subst hc
      refine ⟨fun _ => ?_, fun hmem => absurd (List.mem_cons_self 58 rest) hmem⟩
      simp [splitOnceColon, List.takeWhile, List.dropWhile]
    · constructor
      · intro hmem
        have hmem' : 58 ∈ rest := by
          cases List.mem_cons.mp hmem with
          | inl h => exact absurd h.symm hc
          | inr h => exact h
        have hcb : (c != 58) = true := by
          simp [bne_iff_ne]
          exact hc
        rw [splitOnceColon, if_neg hc, ih.1 hmem']
        simp [List.takeWhile, List.dropWhile, hcb]
      · intro hmem
        have hmem' : ¬ 58 ∈ rest := fun h => hmem (List.mem_cons_of_mem c h)
        rw [splitOnceColon, if_neg hc, ih.2 hmem']
        rfl

/-- C10 counterexample: for the host string "a:b" (which contains a colon),
`_parse_host` does not split-and-use a port at all — `int("b")` raises, so
the call fails instead of using any port. -/
theorem claim_C10_counterexample :
    58 ∈ [97, 58, 98] ∧ _parse_host [97, 58, 98] 443 = none := by
  refine ⟨by decide, rfl⟩

/-- C10 amended: for every host string containing a colon, `_parse_host`
splits at the first colon into a name and a port string, ignoring the port
argument: when the port string parses as a Python integer literal that value
is used as the port, and otherwise the call fails with ValueError; for every
host string without a colon the host and the port argument are used
unchanged. -/
theorem claim_C10_amended (host : List Nat) (port : Int) :
    (58 ∈ host →
      (∀ v : Int, pyInt ((host.dropWhile (fun c => c != 58)).drop 1) = some v →
        _parse_host host port = some (host.takeWhile (fun c => c != 58), v)) ∧
      (pyInt ((host.dropWhile (fun c => c != 58)).drop 1) = none →
        _parse_host host port = none)) ∧
    (¬ 58 ∈ host → _parse_host host port = some (host, port)) := by
  constructor
  · intro hmem
    constructor
    · intro v hv
      rw [_parse_host, (splitOnceColon_spec host).1 hmem]
      show Option.map (fun n => (host.takeWhile (fun c => c != 58), n))
        (pyInt ((host.dropWhile (fun c => c != 58)).drop 1)) = _
      rw [hv]
      rfl
    · intro hv
      rw [_parse_host, (splitOnceColon_spec host).1 hmem]
      show Option.map (fun n => (host.takeWhile (fun c => c != 58), n))
        (pyInt ((host.dropWhile (fun c => c != 58)).drop 1)) = _
      rw [hv]
      rfl
  · intro hmem
    rw [_parse_host, (splitOnceColon_spec host).2 hmem]

/-- Witness for C10 amended: "x:80" with port argument 443 yields name "x"
and port 80, and "h" without a colon yields host "h" and port 443. -/
theorem claim_C10_amended_witness :
    _parse_host [120, 58, 56, 48] 443 = some ([120], 80) ∧
    _parse_host [104] 443 = some ([104], 443) :=
  ⟨((claim_C10_amended [120, 58, 56, 48] 443).1 (by decide)).1 80 rfl,
    (claim_C10_amended [104] 443).2 (by decide)⟩

end HelloTls
